import Mathlib

/-!
Verification of the lox-base interpreter (src/lox/runtime.py, src/lox/ast.py,
src/lox/transformer.py) against its natural-language specification.

The embedding follows the Python source closely:

* Python doubles are idealized as exact rationals together with a
  negative-zero flag (meaningful only at value zero) plus `nan`, `inf`
  and `-inf`; IEEE rounding is not modelled, finite arithmetic is exact.
* Python `int` values (which leak into the value universe through
  `operator.neg` applied to a boolean) are modelled by a separate
  constructor.
* Mutable Python objects with identity (environment frames, instances)
  live in an explicit heap inside an evaluation `State`; values refer to
  them by address.
* Python exceptions become an explicit `Fault` type distinguishing the
  exception class (`LoxError`, `SemanticError`, `TypeError`, ...).
* Evaluation is fuel-indexed; exhausting fuel yields a `timeout` outcome
  distinct from every fault, so no theorem below confuses
  non-termination with a result.

The environment (`Ctx`, file `ctx.py`) and the cursor framework
(`node.py`) are not part of the sources; their operations are modelled
from the specification (sections 4.2 and 4.3) and are marked as such.
-/

namespace Lox

/-- Python double values, idealized: a finite double is an exact rational
together with a flag recording whether it is the IEEE negative zero (the
flag is meaningful only when the rational is zero), plus `nan` and the two
infinities.  Rounding of finite arithmetic is not modelled. -/
inductive PyNum where
  | finite (q : ℚ) (negZero : Bool)
  | nan
  | inf
  | ninf
deriving DecidableEq, Repr

namespace PyNum

/-- Smart constructor keeping the invariant that the negative-zero flag is
set only at value zero. -/
def mkF (q : ℚ) (nz : Bool) : PyNum :=
  .finite q (nz && decide (q = 0))

/-- Sign bit of a double (true = negative), as used for the sign of zero
results of multiplication and division. -/
def sgn : PyNum → Bool
  | .finite q nz => if q < 0 then true else if q = 0 then nz else false
  | .nan => false
  | .inf => false
  | .ninf => true

/-- Python `==` on doubles: `nan` is not equal to anything, `-0.0 == 0.0`. -/
def eqNum : PyNum → PyNum → Bool
  | .finite a _, .finite b _ => a == b
  | .inf, .inf => true
  | .ninf, .ninf => true
  | _, _ => false

/-- Python `x != 0` on doubles (`nan != 0` and the infinities are nonzero;
`-0.0 != 0` is false). -/
def isZero : PyNum → Bool
  | .finite q _ => q == 0
  | _ => false

/-- Python `<` on doubles: any comparison with `nan` is false. -/
def ltNum : PyNum → PyNum → Bool
  | .finite a _, .finite b _ => a < b
  | .finite _ _, .inf => true
  | .ninf, .finite _ _ => true
  | .ninf, .inf => true
  | _, _ => false

/-- Python `<=` on doubles. -/
def leNum (a b : PyNum) : Bool := ltNum a b || eqNum a b

/-- Unary minus on doubles (`-0.0` is the negation of `0.0`). -/
def negNum : PyNum → PyNum
  | .finite q nz => if q = 0 then .finite 0 (!nz) else .finite (-q) false
  | .nan => .nan
  | .inf => .ninf
  | .ninf => .inf

/-- Addition of doubles.  A zero sum of two finite operands is the IEEE
negative zero exactly when both operands are negative zeros. -/
def addNum : PyNum → PyNum → PyNum
  | .nan, _ => .nan
  | _, .nan => .nan
  | .inf, .ninf => .nan
  | .ninf, .inf => .nan
  | .inf, _ => .inf
  | _, .inf => .inf
  | .ninf, _ => .ninf
  | _, .ninf => .ninf
  | .finite a az, .finite b bz => mkF (a + b) (az && bz)

/-- Subtraction of doubles, defined as addition of the negation (matches
the IEEE sign-of-zero rules used by the host). -/
def subNum (a b : PyNum) : PyNum := addNum a (negNum b)

/-- Multiplication of doubles; a zero product carries the xor of the
operand signs. -/
def mulNum : PyNum → PyNum → PyNum
  | .nan, _ => .nan
  | _, .nan => .nan
  | .inf, b => if isZero b then .nan else if sgn b then .ninf else .inf
  | .ninf, b => if isZero b then .nan else if sgn b then .inf else .ninf
  | a, .inf => if isZero a then .nan else if sgn a then .ninf else .inf
  | a, .ninf => if isZero a then .nan else if sgn a then .inf else .ninf
  | .finite a az, .finite b bz =>
      mkF (a * b) (sgn (.finite a az) != sgn (.finite b bz))

/-- Division of doubles.  The runtime only ever divides after checking
`right != 0`, so the finite-by-zero branch is unreachable there; it is
mapped to `nan` to keep the function total. -/
def divNum : PyNum → PyNum → PyNum
  | .nan, _ => .nan
  | _, .nan => .nan
  | .inf, .inf => .nan
  | .inf, .ninf => .nan
  | .ninf, .inf => .nan
  | .ninf, .ninf => .nan
  | .inf, b => if sgn b then .ninf else .inf
  | .ninf, b => if sgn b then .inf else .ninf
  | a, .inf => mkF 0 (!(sgn a == false))
  | a, .ninf => mkF 0 (sgn a == false)
  | .finite a az, .finite b bz =>
      if b = 0 then .nan
      else mkF (a / b) (sgn (.finite a az) != sgn (.finite b bz))

end PyNum

/-- Constants a `Literal` node can carry (the AST-level `Value` alias of
`ast.py`: `bool | str | float | None`; the transformer produces exactly
these). -/
inductive Lit where
  | nil
  | bool (b : Bool)
  | num (n : PyNum)
  | str (s : String)
deriving DecidableEq, Repr

/-- The unary operator functions the transformer wires into `UnaryOp`
nodes: `op.neg` (Python `operator.neg`) and `op.not_`. -/
inductive UnOpK where
  | neg
  | notOp
deriving DecidableEq, Repr

/-- The binary operator functions the transformer wires into `BinOp`
nodes (`runtime.add`, `runtime.sub`, ..., `runtime.ne`). -/
inductive BinOpK where
  | add | sub | mul | div | gt | ge | lt | le | eq | ne
deriving DecidableEq, Repr

mutual
/-- Expression nodes of `ast.py`. -/
inductive Expr where
  | binOp (left right : Expr) (op : BinOpK)
  | var (name : String)
  | literal (v : Lit)
  | andE (left right : Expr)
  | orE (left right : Expr)
  | unaryOp (e : Expr) (op : UnOpK)
  | call (func : Expr) (params : List Expr)
  | thisE
  | superE (methodName : String)
  | assign (name : String) (value : Expr)
  | getattr (value : Expr) (attr : String)
  | setattr (value : Expr) (attr : String) (e : Expr)
deriving BEq, Repr
/-- Statement nodes of `ast.py`.  A `Class` carries its methods as a list
of statements, which are `Function` nodes for every program the
transformer can produce.  The host AST is untyped and lets an expression
node stand in statement position (e.g. `this.x = x;` inside a block is a
bare `Setattr` node); `exprStmt` marks that embedding and adds no node
of its own — evaluation evaluates the expression and discards its value,
and validation sees the expression itself. -/
inductive Stmt where
  | exprStmt (e : Expr)
  | print (e : Expr)
  | ret (value : Option Expr)
  | varDef (name : String) (value : Expr)
  | ifS (condition : Expr) (thenStmt : Stmt) (elseStmt : Option Stmt)
  | whileS (condition : Expr) (body : Stmt)
  | block (stmts : List Stmt)
  | function (name : String) (params : List String) (body : Stmt)
  | classS (name : String) (methods : List Stmt) (superclass : Option String)
deriving BEq, Repr
end

mutual
/-- The runtime value universe.  Mutable Python objects with identity
(`LoxInstance`, environment frames) are referenced by heap address; a
`LoxBoundMethod` and the `init_wrapper` closure made by
`LoxInstance._create_init_wrapper` carry a fresh identity number because
their Python equality is object identity.  The `int` constructor models
host integers, which enter the universe through `operator.neg` applied to
a boolean. -/
inductive Value where
  | nil
  | bool (b : Bool)
  | num (n : PyNum)
  | int (z : ℤ)
  | str (s : String)
  | cls (c : LoxClass)
  | inst (addr : ℕ)
  | fn (f : LoxFunction)
  | boundMethod (id : ℕ) (instAddr : ℕ) (method : LoxFunction)
  | initWrapper (id : ℕ) (selfAddr : ℕ) (method : LoxFunction)
/-- `runtime.LoxClass`: name, method table (a dict, kept in insertion
order with unique keys), optional base class. -/
inductive LoxClass where
  | mk (name : String) (methods : List (String × LoxFunction)) (base : Option LoxClass)
/-- `runtime.LoxFunction`: name, parameter names, body block and the
captured defining environment (a chain of frame addresses, innermost
first). -/
inductive LoxFunction where
  | mk (name : String) (params : List String) (body : Stmt) (ctx : List ℕ)
end

namespace LoxClass

def name : LoxClass → String
  | .mk n _ _ => n

def methods : LoxClass → List (String × LoxFunction)
  | .mk _ m _ => m

def base : LoxClass → Option LoxClass
  | .mk _ _ b => b

end LoxClass

namespace LoxFunction

def name : LoxFunction → String
  | .mk n _ _ _ => n

def params : LoxFunction → List String
  | .mk _ p _ _ => p

def body : LoxFunction → Stmt
  | .mk _ _ b _ => b

def ctx : LoxFunction → List ℕ
  | .mk _ _ _ c => c

end LoxFunction

/-- `LoxClass.get_method`: search the class's own table, then the bases;
`none` models the `LoxError("Undefined method '...'.")` raise. -/
def getMethod : LoxClass → String → Option LoxFunction
  | .mk _ ms b, n =>
    match ms.lookup n with
    | some f => some f
    | none =>
      match b with
      | some bc => getMethod bc n
      | none => none

/-- A dict binding: insert-or-overwrite keeping insertion order (Python
`d[k] = v`). -/
def dictInsert (k : String) (v : Value) : List (String × Value) → List (String × Value)
  | [] => [(k, v)]
  | (k1, v1) :: rest =>
    if k1 = k then (k, v) :: rest else (k1, v1) :: dictInsert k v rest

/-- Method-table insert, same dict semantics as `dictInsert`. -/
def mdictInsert (k : String) (v : LoxFunction) :
    List (String × LoxFunction) → List (String × LoxFunction)
  | [] => [(k, v)]
  | (k1, v1) :: rest =>
    if k1 = k then (k, v) :: rest else (k1, v1) :: mdictInsert k v rest

/-- One environment frame: a Python dict from names to values. -/
abbrev Frame := List (String × Value)

/-- An environment (`Ctx`): the chain of frame addresses, innermost
first.  Modelled from the spec: `ctx.py` is not among the sources;
section 4.2 describes the operations (construct root, push, lookup,
define, assign). -/
abbrev Ctx := List ℕ

/-- Data of one `LoxInstance`: its class and its `__dict__` of fields. -/
structure InstData where
  cls : LoxClass
  fields : Frame

/-- Evaluation state: the frame heap (addresses are list positions), the
instance heap, a counter handing out identities for bound methods and
init wrappers, and the lines printed so far. -/
structure State where
  frames : List Frame
  insts : List InstData
  nextId : ℕ
  output : List String

/-- The state of a fresh interpreter run: one empty root frame. -/
def initState : State := ⟨[[]], [], 0, []⟩

/-- The Python exceptions the interpreter can raise, by exception class. -/
inductive Fault where
  | loxError (msg : String)
  | semanticError (msg : String)
  | typeError (msg : String)
  | nameError (msg : String)
  | runtimeError (msg : String)
  | attributeError (msg : String)
  | keyError (name : String)
deriving DecidableEq, Repr

/-- The host `type()` of a runtime value, used by `runtime.eq`'s
`type(left) != type(right)` test.  A bound method and an init wrapper
have distinct host types (`LoxBoundMethod` and `function`). -/
inductive KindTag where
  | nilT | boolT | floatT | intT | strT
  | classT | instanceT | functionT | boundMethodT | hostFunctionT
deriving DecidableEq, Repr

def kindOf : Value → KindTag
  | .nil => .nilT
  | .bool _ => .boolT
  | .num _ => .floatT
  | .int _ => .intT
  | .str _ => .strT
  | .cls _ => .classT
  | .inst _ => .instanceT
  | .fn _ => .functionT
  | .boundMethod .. => .boundMethodT
  | .initWrapper .. => .hostFunctionT

/-- Dataclass-generated equality of `LoxFunction` values: field-by-field
comparison of name, parameter list, body AST and captured environment. -/
def fnEq : LoxFunction → LoxFunction → Bool
  | .mk n1 p1 b1 c1, .mk n2 p2 b2 c2 => n1 == n2 && p1 == p2 && b1 == b2 && c1 == c2

/-- Look a function up by key in a method table and compare it, part of
dict equality of method tables. -/
def fnFind (k : String) (f : LoxFunction) : List (String × LoxFunction) → Bool
  | [] => false
  | (k1, f1) :: rest => if k1 == k then fnEq f f1 else fnFind k f rest

/-- Dict containment of method tables (each binding of the first occurs
in the second). -/
def methodsSub (other : List (String × LoxFunction)) :
    List (String × LoxFunction) → Bool
  | [] => true
  | (k, f) :: rest => fnFind k f other && methodsSub other rest

/-- Dataclass-generated equality of `LoxClass` values: equal names,
key-equal method dicts, recursively equal bases. -/
def clsEq : LoxClass → LoxClass → Bool
  | .mk n1 m1 b1, .mk n2 m2 b2 =>
    n1 == n2 && m1.length == m2.length && methodsSub m2 m1 &&
      (match b1, b2 with
       | none, none => true
       | some a, some b => clsEq a b
       | _, _ => false)

/-- Host `==` between two values, as invoked by `runtime.eq` after its
type test.  `LoxInstance` is a dataclass with no comparison fields, so
its generated `__eq__` compares empty field tuples: any two instances
are equal.  `LoxBoundMethod.__eq__` and the host equality of the init
wrapper closure are object identity, modelled by the identity counter. -/
def pyEqV : Value → Value → Bool
  | .nil, .nil => true
  | .bool a, .bool b => a == b
  | .num a, .num b => a.eqNum b
  | .int a, .int b => a == b
  | .str a, .str b => a == b
  | .inst _, .inst _ => true
  | .cls a, .cls b => clsEq a b
  | .fn a, .fn b => fnEq a b
  | .boundMethod i _ _, .boundMethod j _ _ => i == j
  | .initWrapper i _ _, .initWrapper j _ _ => i == j
  | _, _ => false

/-- `runtime.eq`: strict equality — different host types are never
equal, identical types compare with host `==`. -/
def eqV (left right : Value) : Bool :=
  if kindOf left ≠ kindOf right then false else pyEqV left right

/-- `runtime.ne`: strict inequality. -/
def neV (left right : Value) : Bool := !(eqV left right)

/-- `runtime.truthy`: only `nil` and `false` are falsy. -/
def truthy : Value → Bool
  | .nil => false
  | .bool false => false
  | _ => true

/-- `runtime.not_`: Lox logical not. -/
def notV (v : Value) : Value := .bool (!truthy v)

def isBool : Value → Bool
  | .bool _ => true
  | _ => false

/-- `isinstance(v, (int, float))`, the numeric test of the arithmetic
operators (booleans are excluded before it is consulted). -/
def asNum : Value → Option PyNum
  | .num n => some n
  | .int z => some (.finite z false)
  | _ => none

def isNumeric (v : Value) : Bool := (asNum v).isSome

/-- `runtime.add`: numbers add, strings concatenate, booleans and mixes
fail. -/
def add (left right : Value) : Except Fault Value :=
  if isBool left || isBool right then
    .error (.loxError "Operands must be two numbers or two strings.")
  else
    match left, right with
    | .str a, .str b => .ok (.str (a ++ b))
    | .num a, .num b => .ok (.num (a.addNum b))
    | .num a, .int b => .ok (.num (a.addNum (.finite b false)))
    | .int a, .num b => .ok (.num (PyNum.addNum (.finite a false) b))
    | .int a, .int b => .ok (.int (a + b))
    | _, _ => .error (.loxError "Operands must be two numbers or two strings.")

/-- `runtime.sub`. -/
def sub (left right : Value) : Except Fault Value :=
  if isBool left || isBool right then .error (.loxError "Operands must be numbers.")
  else
    match left, right with
    | .num a, .num b => .ok (.num (a.subNum b))
    | .num a, .int b => .ok (.num (a.subNum (.finite b false)))
    | .int a, .num b => .ok (.num (PyNum.subNum (.finite a false) b))
    | .int a, .int b => .ok (.int (a - b))
    | _, _ => .error (.loxError "Operands must be numbers.")

/-- `runtime.mul`. -/
def mul (left right : Value) : Except Fault Value :=
  if isBool left || isBool right then .error (.loxError "Operands must be numbers.")
  else
    match left, right with
    | .num a, .num b => .ok (.num (a.mulNum b))
    | .num a, .int b => .ok (.num (a.mulNum (.finite b false)))
    | .int a, .num b => .ok (.num (PyNum.mulNum (.finite a false) b))
    | .int a, .int b => .ok (.int (a * b))
    | _, _ => .error (.loxError "Operands must be numbers.")

/-- `runtime.truediv`: `left / right if right != 0 else float('nan')`.
True division always yields a double. -/
def truediv (left right : Value) : Except Fault Value :=
  if isBool left || isBool right then .error (.loxError "Operands must be numbers.")
  else
    match asNum left, asNum right with
    | some a, some b => .ok (.num (if b.isZero then .nan else a.divNum b))
    | _, _ => .error (.loxError "Operands must be numbers.")

/-- `runtime.gt`. -/
def gt (left right : Value) : Except Fault Value :=
  if isBool left || isBool right then .error (.loxError "Operands must be numbers.")
  else
    match asNum left, asNum right with
    | some a, some b => .ok (.bool (PyNum.ltNum b a))
    | _, _ => .error (.loxError "Operands must be numbers.")

/-- `runtime.ge`. -/
def ge (left right : Value) : Except Fault Value :=
  if isBool left || isBool right then .error (.loxError "Operands must be numbers.")
  else
    match asNum left, asNum right with
    | some a, some b => .ok (.bool (PyNum.leNum b a))
    | _, _ => .error (.loxError "Operands must be numbers.")

/-- `runtime.lt`. -/
def lt (left right : Value) : Except Fault Value :=
  if isBool left || isBool right then .error (.loxError "Operands must be numbers.")
  else
    match asNum left, asNum right with
    | some a, some b => .ok (.bool (PyNum.ltNum a b))
    | _, _ => .error (.loxError "Operands must be numbers.")

/-- `runtime.le`. -/
def le (left right : Value) : Except Fault Value :=
  if isBool left || isBool right then .error (.loxError "Operands must be numbers.")
  else
    match asNum left, asNum right with
    | some a, some b => .ok (.bool (PyNum.leNum a b))
    | _, _ => .error (.loxError "Operands must be numbers.")

/-- Host type name, as it appears in host `TypeError` messages. -/
def pyTypeName : Value → String
  | .nil => "NoneType"
  | .bool _ => "bool"
  | .num _ => "float"
  | .int _ => "int"
  | .str _ => "str"
  | .cls _ => "LoxClass"
  | .inst _ => "LoxInstance"
  | .fn _ => "LoxFunction"
  | .boundMethod .. => "LoxBoundMethod"
  | .initWrapper .. => "function"

/-- The unary minus the transformer wires in: the file imports
`operator.neg` from the host (`from operator import neg`), so a boolean
negates as a host integer and a non-numeric operand raises a host
`TypeError`, not a Lox fault. -/
def negV : Value → Except Fault Value
  | .bool b => .ok (.int (if b then -1 else 0))
  | .num n => .ok (.num n.negNum)
  | .int z => .ok (.int (-z))
  | v => .error (.typeError ("bad operand type for unary -: '" ++ pyTypeName v ++ "'"))

/-- Decimal digits of a natural number, most significant first. -/
def digitChar (n : ℕ) : Char := Char.ofNat (48 + n)

/-- Digit extraction with an explicit structural fuel (any fuel above the
digit count gives the digits; `natDigs` passes `n + 1`, always enough
since `n / 10 < n`). -/
def natDigsAux : ℕ → ℕ → List Char
  | 0, _ => []
  | fuel + 1, n =>
    if n < 10 then [digitChar n]
    else natDigsAux fuel (n / 10) ++ [digitChar (n % 10)]

def natDigs (n : ℕ) : List Char := natDigsAux (n + 1) n

def natStr (n : ℕ) : String := String.mk (natDigs n)

/-- Host `str` of an integer. -/
def intStr (z : ℤ) : String :=
  if z < 0 then "-" ++ natStr z.natAbs else natStr z.natAbs

/-- Fractional decimal digits of `r / d` (r < d), at most `fuel` digits;
host floats print at most 17 significant digits. -/
def fracDigs : ℕ → ℕ → ℕ → List Char
  | 0, _, _ => []
  | _ + 1, 0, _ => []
  | fuel + 1, r, d => digitChar (r * 10 / d) :: fracDigs fuel (r * 10 % d) d

/-- Host `str` of a non-integral double, idealized: the exact decimal
expansion (the host prints the shortest decimal denoting the same
double, which agrees on short decimal values such as `3.5`). -/
def floatStr (q : ℚ) : String :=
  let sign := if q < 0 then "-" else ""
  let n := q.num.natAbs
  let d := q.den
  sign ++ natStr (n / d) ++ "." ++ String.mk (fracDigs 17 (n % d) d)

/-- The number branch of `runtime.show`: a literal negative zero prints
`"-0"`, an integral value prints as its integer, anything else keeps its
fractional text. -/
def showNum : PyNum → String
  | .nan => "nan"
  | .inf => "inf"
  | .ninf => "-inf"
  | .finite q nz =>
    if (q == 0) && nz then "-0"
    else if q.den = 1 then intStr q.num
    else floatStr q

/-- `runtime.show`: render a value for `print`.  A host integer (never
produced by the transformer, but reachable through `operator.neg` on a
boolean) falls through every `isinstance` test to the generic
`"... instance"` branch. -/
def showV (st : State) : Value → String
  | .nil => "nil"
  | .bool true => "true"
  | .bool false => "false"
  | .str s => s
  | .num n => showNum n
  | .cls c => c.name
  | .inst a =>
    (match st.insts.get? a with
     | some d => d.cls.name
     | none => "") ++ " instance"
  | .boundMethod _ _ m => "<fn " ++ m.name ++ ">"
  | .fn f => "<fn " ++ f.name ++ ">"
  | .initWrapper .. => "<native fn>"
  | .int _ => "int instance"

/-- Outcome of evaluating a node: normal completion, a raised fault, the
`LoxReturn` control signal unwinding to the nearest call boundary, or
fuel exhaustion (distinct from every fault; models a run that has not
finished). -/
inductive Res (α : Type) where
  | ok (st : State) (v : α)
  | fault (st : State) (f : Fault)
  | ret (st : State) (v : Value)
  | timeout

/-- Modelled from the spec: `Ctx.push` (section 4.2) — a new innermost
frame holding exactly the given bindings; the frame is heap-allocated
because frames are shared and mutated in place. -/
def pushFrame (st : State) (ctx : Ctx) (env : Frame) : State × Ctx :=
  ({ st with frames := st.frames ++ [env] }, st.frames.length :: ctx)

/-- Modelled from the spec: `Ctx` lookup (section 4.2) — innermost frame
first, `none` models the `KeyError` of an undefined name. -/
def ctxLookup (st : State) : Ctx → String → Option Value
  | [], _ => none
  | a :: rest, n =>
    match (st.frames.getD a []).lookup n with
    | some v => some v
    | none => ctxLookup st rest n

/-- Modelled from the spec: `Ctx.var_def` (section 4.2) — create or
overwrite a binding in the innermost frame only. -/
def ctxVarDef (st : State) (ctx : Ctx) (n : String) (v : Value) : State :=
  match ctx with
  | [] => st
  | a :: _ =>
    { st with frames := st.frames.set a (dictInsert n v (st.frames.getD a [])) }

/-- Modelled from the spec: `Ctx.assign` (section 4.2) — overwrite the
innermost existing binding, never creating one; `none` models the
Undefined-Variable condition. -/
def ctxAssign (st : State) : Ctx → String → Value → Option State
  | [], _, _ => none
  | a :: rest, n, v =>
    if ((st.frames.getD a []).lookup n).isSome then
      some { st with frames := st.frames.set a (dictInsert n v (st.frames.getD a [])) }
    else ctxAssign st rest n v

/-- `LoxInstance(self)`: allocate a fresh instance of a class with an
empty field dict; returns its address. -/
def allocInst (st : State) (c : LoxClass) : State × ℕ :=
  ({ st with insts := st.insts ++ [⟨c, []⟩] }, st.insts.length)

/-- `setattr` on an instance: create or overwrite a field. -/
def instSetField (st : State) (a : ℕ) (n : String) (v : Value) : State :=
  match st.insts.get? a with
  | some d => { st with insts := st.insts.set a ⟨d.cls, dictInsert n v d.fields⟩ }
  | none => st

def freshId (st : State) : State × ℕ :=
  ({ st with nextId := st.nextId + 1 }, st.nextId)

/-- `LoxFunction.bind`: a new function whose environment is the captured
one extended with a frame binding `this`. -/
def bindFn (st : State) (f : LoxFunction) (v : Value) : State × LoxFunction :=
  let p := pushFrame st f.ctx [("this", v)]
  (p.1, .mk f.name f.params f.body p.2)

/-- Attribute read on an instance (`LoxInstance.__getattr__` path): a
stored field wins; otherwise the attribute resolves through the class's
method table, a method named `init` wrapping into the always-return-self
closure, any other into a `LoxBoundMethod`.  A miss propagates
`get_method`'s `LoxError`.  (The `bound_ctx` a real `LoxBoundMethod`
builds is never read by any code path and is not modelled.) -/
def getattrInst (st : State) (a : ℕ) (attr : String) : State × Except Fault Value :=
  match st.insts.get? a with
  | none => (st, .error (.attributeError attr))
  | some d =>
    match d.fields.lookup attr with
    | some v => (st, .ok v)
    | none =>
      match getMethod d.cls attr with
      | none => (st, .error (.loxError ("Undefined method '" ++ attr ++ "'.")))
      | some m =>
        let p := freshId st
        if attr = "init" then (p.1, .ok (.initWrapper p.2 a m))
        else (p.1, .ok (.boundMethod p.2 a m))

/-- Dispatch of the operator function stored in a `BinOp` node, as the
transformer wires it (`op_handler(op.add)`, ..., `op_handler(op.ne)`). -/
def applyBin : BinOpK → Value → Value → Except Fault Value
  | .add => add
  | .sub => sub
  | .mul => mul
  | .div => truediv
  | .gt => gt
  | .ge => ge
  | .lt => lt
  | .le => le
  | .eq => fun l r => .ok (.bool (eqV l r))
  | .ne => fun l r => .ok (.bool (neV l r))

/-- Dispatch of the operator stored in a `UnaryOp` node (`op.neg`,
`op.not_`). -/
def applyUn : UnOpK → Value → Except Fault Value
  | .neg => negV
  | .notOp => fun v => .ok (notV v)

def litToValue : Lit → Value
  | .nil => .nil
  | .bool b => .bool b
  | .num n => .num n
  | .str s => .str s

/-- Build a class's method table (`Class.eval`'s loop over
`self.methods`), folding from the left as the Python loop does: each
`Function` node closes over the method context.  A non-`Function` entry
(impossible for transformer output) would be a host attribute error. -/
def buildMethodsFold (mctx : Ctx) (ms : List Stmt) :
    Except Fault (List (String × LoxFunction)) :=
  ms.foldlM
    (fun tbl s =>
      match s with
      | .function mn mp mb => .ok (mdictInsert mn (.mk mn mp mb mctx) tbl)
      | _ => .error (.attributeError "name"))
    []

mutual

/-- Evaluation of expression nodes, following each node's `eval` in
`ast.py`.  Fuel only bounds recursion depth; a big enough fuel never
changes a non-`timeout` outcome. -/
def evalExpr : ℕ → State → Ctx → Expr → Res Value
  | 0, _, _, _ => .timeout
  | fuel + 1, st, ctx, e =>
    match e with
    | .binOp l r op =>
      match evalExpr fuel st ctx l with
      | .ok st1 lv =>
        match evalExpr fuel st1 ctx r with
        | .ok st2 rv =>
          match applyBin op lv rv with
          | .ok v => .ok st2 v
          | .error f => .fault st2 f
        | r2 => r2
      | r1 => r1
    | .var n =>
      match ctxLookup st ctx n with
      | some v => .ok st v
      | none => .fault st (.nameError ("variável " ++ n ++ " não existe!"))
    | .literal l => .ok st (litToValue l)
    | .andE l r =>
      match evalExpr fuel st ctx l with
      | .ok st1 lv =>
        match lv with
        | .bool false => .ok st1 lv
        | .nil => .ok st1 lv
        | _ => evalExpr fuel st1 ctx r
      | r1 => r1
    | .orE l r =>
      match evalExpr fuel st ctx l with
      | .ok st1 lv =>
        match lv with
        | .bool false => evalExpr fuel st1 ctx r
        | .nil => evalExpr fuel st1 ctx r
        | _ => .ok st1 lv
      | r1 => r1
    | .unaryOp e1 op =>
      match evalExpr fuel st ctx e1 with
      | .ok st1 v =>
        match applyUn op v with
        | .ok v1 => .ok st1 v1
        | .error f => .fault st1 f
      | r1 => r1
    | .call f args =>
      match evalExpr fuel st ctx f with
      | .ok st1 fv =>
        match evalExprList fuel st1 ctx args with
        | .ok st2 avs => callValue fuel st2 fv avs
        | .fault st2 f2 => .fault st2 f2
        | .ret st2 v => .ret st2 v
        | .timeout => .timeout
      | r1 => r1
    | .thisE =>
      match ctxLookup st ctx "this" with
      | some v => .ok st v
      | none => .fault st (.nameError "variável this não existe!")
    | .superE mname =>
      match ctxLookup st ctx "super" with
      | none => .fault st (.nameError "variável super não existe!")
      | some sv =>
        match ctxLookup st ctx "this" with
        | none => .fault st (.nameError "variável this não existe!")
        | some tv =>
          match sv with
          | .cls c =>
            match getMethod c mname with
            | none => .fault st (.loxError ("Undefined method '" ++ mname ++ "'."))
            | some meth =>
              let p := bindFn st meth tv
              .ok p.1 (.fn p.2)
          | _ => .fault st (.attributeError mname)
    | .assign n e1 =>
      match evalExpr fuel st ctx e1 with
      | .ok st1 v =>
        match ctxAssign st1 ctx n v with
        | some st2 => .ok st2 v
        | none => .fault st1 (.keyError n)
      | r1 => r1
    | .getattr e1 attr =>
      match evalExpr fuel st ctx e1 with
      | .ok st1 ov =>
        match ov with
        | .inst a =>
          match getattrInst st1 a attr with
          | (st2, .ok v) => .ok st2 v
          | (st2, .error f2) => .fault st2 f2
        | _ => .fault st1 (.attributeError attr)
      | r1 => r1
    | .setattr e1 attr e2 =>
      match evalExpr fuel st ctx e1 with
      | .ok st1 ov =>
        match evalExpr fuel st1 ctx e2 with
        | .ok st2 v =>
          match ov with
          | .cls _ => .fault st2 (.runtimeError "Only instances have fields.")
          | .fn _ => .fault st2 (.runtimeError "Only instances have fields.")
          | .inst a => .ok (instSetField st2 a attr v) v
          | .boundMethod .. => .ok st2 v
          | .initWrapper .. => .ok st2 v
          | _ => .fault st2 (.attributeError attr)
        | r2 => r2
      | r1 => r1

/-- Evaluation of the argument list of a call, left to right. -/
def evalExprList : ℕ → State → Ctx → List Expr → Res (List Value)
  | 0, _, _, _ => .timeout
  | _ + 1, st, _, [] => .ok st []
  | fuel + 1, st, ctx, e :: rest =>
    match evalExpr fuel st ctx e with
    | .ok st1 v =>
      match evalExprList fuel st1 ctx rest with
      | .ok st2 vs => .ok st2 (v :: vs)
      | r2 => r2
    | .fault st1 f => .fault st1 f
    | .ret st1 v => .ret st1 v
    | .timeout => .timeout

/-- Evaluation of statement nodes. -/
def evalStmt : ℕ → State → Ctx → Stmt → Res Unit
  | 0, _, _, _ => .timeout
  | fuel + 1, st, ctx, s =>
    match s with
    | .exprStmt e =>
      match evalExpr fuel st ctx e with
      | .ok st1 _ => .ok st1 ()
      | .fault st1 f => .fault st1 f
      | .ret st1 v => .ret st1 v
      | .timeout => .timeout
    | .print e =>
      match evalExpr fuel st ctx e with
      | .ok st1 v => .ok { st1 with output := st1.output ++ [showV st1 v] } ()
      | .fault st1 f => .fault st1 f
      | .ret st1 v => .ret st1 v
      | .timeout => .timeout
    | .ret none => .ret st .nil
    | .ret (some e) =>
      match evalExpr fuel st ctx e with
      | .ok st1 v => .ret st1 v
      | r1 =>
        match r1 with
        | .fault st1 f => .fault st1 f
        | .ret st1 v => .ret st1 v
        | _ => .timeout
    | .varDef n e =>
      match evalExpr fuel st ctx e with
      | .ok st1 v => .ok (ctxVarDef st1 ctx n v) ()
      | .fault st1 f => .fault st1 f
      | .ret st1 v => .ret st1 v
      | .timeout => .timeout
    | .ifS c t els =>
      match evalExpr fuel st ctx c with
      | .ok st1 v =>
        if truthy v then evalStmt fuel st1 ctx t
        else
          match els with
          | some s2 => evalStmt fuel st1 ctx s2
          | none => .ok st1 ()
      | .fault st1 f => .fault st1 f
      | .ret st1 v => .ret st1 v
      | .timeout => .timeout
    | .whileS c b =>
      match evalExpr fuel st ctx c with
      | .ok st1 v =>
        if truthy v then
          match evalStmt fuel st1 ctx b with
          | .ok st2 _ => evalStmt fuel st2 ctx (.whileS c b)
          | r2 => r2
        else .ok st1 ()
      | .fault st1 f => .fault st1 f
      | .ret st1 v => .ret st1 v
      | .timeout => .timeout
    | .block stmts =>
      let p := pushFrame st ctx []
      evalStmtList fuel p.1 p.2 stmts
    | .function n ps body =>
      .ok (ctxVarDef st ctx n (.fn (.mk n ps body ctx))) ()
    | .classS n ms sup =>
      match sup with
      | none =>
        match buildMethodsFold ctx ms with
        | .ok tbl => .ok (ctxVarDef st ctx n (.cls (.mk n tbl none))) ()
        | .error f => .fault st f
      | some sname =>
        match ctxLookup st ctx sname with
        | none => .fault st (.keyError sname)
        | some sv =>
          match sv with
          | .cls c =>
            let p := pushFrame st ctx [("super", sv)]
            match buildMethodsFold p.2 ms with
            | .ok tbl => .ok (ctxVarDef p.1 ctx n (.cls (.mk n tbl (some c)))) ()
            | .error f => .fault p.1 f
          | _ => .fault st (.semanticError "Superclass must be a class.")

/-- Evaluation of a statement sequence (`Program.eval` and the body loop
of `Block.eval`). -/
def evalStmtList : ℕ → State → Ctx → List Stmt → Res Unit
  | 0, _, _, _ => .timeout
  | _ + 1, st, _, [] => .ok st ()
  | fuel + 1, st, ctx, s :: rest =>
    match evalStmt fuel st ctx s with
    | .ok st1 _ => evalStmtList fuel st1 ctx rest
    | r1 => r1

/-- Invocation of a callee value (`Call.eval`'s `callable` dispatch):
functions, classes, bound methods and the init wrapper are callable,
everything else is the host `TypeError`. -/
def callValue : ℕ → State → Value → List Value → Res Value
  | 0, _, _, _ => .timeout
  | fuel + 1, st, v, args =>
    match v with
    | .fn f => loxFunctionCall fuel st f args
    | .cls c => loxClassCall fuel st c args
    | .boundMethod _ a m => boundMethodCall fuel st a m args
    | .initWrapper _ a m => initWrapperCall fuel st a m args
    | _ => .fault st (.typeError "Objeto não é uma função!")

/-- `LoxFunction.__call__`: arity check, positional parameter frame on
top of the captured environment, body evaluation, `LoxReturn` caught at
this boundary, normal completion yields `nil`. -/
def loxFunctionCall : ℕ → State → LoxFunction → List Value → Res Value
  | 0, _, _, _ => .timeout
  | fuel + 1, st, f, args =>
    if args.length ≠ f.params.length then
      .fault st (.loxError ("Expected " ++ toString f.params.length ++
        " arguments but got " ++ toString args.length ++ "."))
    else
      let p := pushFrame st f.ctx (f.params.zip args)
      match evalStmt fuel p.1 p.2 f.body with
      | .ok st2 _ => .ok st2 .nil
      | .ret st2 v => .ok st2 v
      | .fault st2 f2 => .fault st2 f2
      | .timeout => .timeout

/-- `LoxClass.__call__`: construct the instance, then try to resolve and
invoke `init`; any `LoxError` raised inside the `try` block — be it the
`Undefined method` of a missing `init`, an arity mismatch of a found
`init`, or a Lox fault from `init`'s own body — is caught, after which
the call fails with `Expected 0 arguments but got N.` when arguments
were supplied and silently returns the instance otherwise. -/
def loxClassCall : ℕ → State → LoxClass → List Value → Res Value
  | 0, _, _, _ => .timeout
  | fuel + 1, st, c, args =>
    let p := allocInst st c
    match getMethod c "init" with
    | none =>
      if args.isEmpty then .ok p.1 (.inst p.2)
      else .fault p.1 (.loxError ("Expected 0 arguments but got " ++
        toString args.length ++ "."))
    | some m =>
      let q := bindFn p.1 m (.inst p.2)
      match loxFunctionCall fuel q.1 q.2 args with
      | .ok st3 _ => .ok st3 (.inst p.2)
      | .fault st3 (.loxError _) =>
        if args.isEmpty then .ok st3 (.inst p.2)
        else .fault st3 (.loxError ("Expected 0 arguments but got " ++
          toString args.length ++ "."))
      | .fault st3 f2 => .fault st3 f2
      | .ret st3 v => .ret st3 v
      | .timeout => .timeout

/-- `LoxBoundMethod.__call__`: arity check against the method, a call
frame holding `this` and the parameters on top of the method's captured
environment. -/
def boundMethodCall : ℕ → State → ℕ → LoxFunction → List Value → Res Value
  | 0, _, _, _, _ => .timeout
  | fuel + 1, st, a, m, args =>
    if args.length ≠ m.params.length then
      .fault st (.loxError ("Expected " ++ toString m.params.length ++
        " arguments but got " ++ toString args.length ++ "."))
    else
      let env := (m.params.zip args).foldl
        (fun acc pv => dictInsert pv.1 pv.2 acc) [("this", .inst a)]
      let p := pushFrame st m.ctx env
      match evalStmt fuel p.1 p.2 m.body with
      | .ok st2 _ => .ok st2 .nil
      | .ret st2 v => .ok st2 v
      | .fault st2 f2 => .fault st2 f2
      | .timeout => .timeout

/-- The `init_wrapper` closure produced by attribute access on `init`:
bind and call `init`, propagate its faults, and yield the instance. -/
def initWrapperCall : ℕ → State → ℕ → LoxFunction → List Value → Res Value
  | 0, _, _, _, _ => .timeout
  | fuel + 1, st, a, m, args =>
    let p := bindFn st m (.inst a)
    match loxFunctionCall fuel p.1 p.2 args with
    | .ok st2 _ => .ok st2 (.inst a)
    | .fault st2 f2 => .fault st2 f2
    | .ret st2 v => .ret st2 v
    | .timeout => .timeout

end

/-- Run a program (`Program.eval` against one fresh root environment). -/
def runProgram (fuel : ℕ) (stmts : List Stmt) : Res Unit :=
  evalStmtList fuel initState [0] stmts

/-- The reserved-word set duplicated across the validators of `ast.py`. -/
def reservedWords : List String :=
  ["true", "false", "nil", "return", "var", "fun", "class", "if", "else",
   "while", "for", "print", "and", "or", "this", "super"]

/-- Modelled from the spec: the cursor framework of `node.py`
(section 4.3) hands each validator the chain of ancestor nodes from the
immediate parent outward to the root; this type is one entry of that
chain. -/
inductive ANode where
  | expr (e : Expr)
  | stmt (s : Stmt)
  | prog (stmts : List Stmt)

def ancIsBlock : ANode → Bool
  | .stmt (.block _) => true
  | _ => false

def ancVarDefName : ANode → Option String
  | .stmt (.varDef n _) => some n
  | _ => none

def ancIsClass : ANode → Bool
  | .stmt (.classS ..) => true
  | _ => false

def ancClassSuper : ANode → Option (Option String)
  | .stmt (.classS _ _ sup) => some sup
  | _ => none

def ancFunctionParams : ANode → Option (List String)
  | .stmt (.function _ ps _) => some ps
  | _ => none

/-- The ancestor walk of `Var.validate_self`: stop at the first `VarDef`
ancestor; if it declares the same name and itself sits inside a block
(`is_local`), the reference is illegal. -/
def varValidateLoop (name : String) : List ANode → Except Fault Unit
  | [] => .ok ()
  | a :: rest =>
    match ancVarDefName a with
    | some n =>
      if n == name && rest.any ancIsBlock then
        .error (.semanticError "Can't read local variable in its own initializer.")
      else .ok ()
    | none => varValidateLoop name rest

/-- `Var.validate_self`. -/
def varValidate (name : String) (anc : List ANode) : Except Fault Unit :=
  if reservedWords.contains name then .error (.semanticError "Expect variable name.")
  else varValidateLoop name anc

/-- `VarDef.validate_self`. -/
def varDefValidate (name : String) : Except Fault Unit :=
  if reservedWords.contains name then .error (.semanticError "Expect variable name.")
  else .ok ()

/-- The duplicate-declaration scan of `Block.validate_self`. -/
def blockDupScan (declared : List String) : List Stmt → Except Fault Unit
  | [] => .ok ()
  | .varDef n _ :: rest =>
    if declared.contains n then
      .error (.semanticError "Already a variable with this name in this scope.")
    else blockDupScan (n :: declared) rest
  | _ :: rest => blockDupScan declared rest

/-- `Block.validate_self` walks the ancestors to the nearest `Function`
and stops there; these are its parameters if one exists. -/
def nearestFunctionParams : List ANode → Option (List String)
  | [] => none
  | a :: rest =>
    match ancFunctionParams a with
    | some ps => some ps
    | none => nearestFunctionParams rest

/-- The parameter-shadowing scan of `Block.validate_self`. -/
def blockParamScan (ps : List String) : List Stmt → Except Fault Unit
  | [] => .ok ()
  | .varDef n _ :: rest =>
    if ps.contains n then
      .error (.semanticError "Already a variable with this name in this scope.")
    else blockParamScan ps rest
  | _ :: rest => blockParamScan ps rest

/-- `Block.validate_self`. -/
def blockValidate (stmts : List Stmt) (anc : List ANode) : Except Fault Unit := do
  blockDupScan [] stmts
  match nearestFunctionParams anc with
  | some ps => blockParamScan ps stmts
  | none => .ok ()

/-- `This.validate_self`. -/
def thisValidate (anc : List ANode) : Except Fault Unit :=
  if anc.any ancIsClass then .ok ()
  else .error (.semanticError "Can't use 'this' outside of a class.")

def nearestClassSuper : List ANode → Option (Option String)
  | [] => none
  | a :: rest =>
    match ancClassSuper a with
    | some s => some s
    | none => nearestClassSuper rest

/-- `Super.validate_self`. -/
def superValidate (anc : List ANode) : Except Fault Unit :=
  match nearestClassSuper anc with
  | none => .error (.semanticError "Can't use 'super' outside of a class.")
  | some none => .error (.semanticError "Can't use 'super' in a class with no superclass.")
  | some (some _) => .ok ()

/-- First `Function` ancestor together with its own ancestor chain. -/
def nearestFunctionWithRest : List ANode → Option (Stmt × List ANode)
  | [] => none
  | .stmt (.function n ps b) :: rest => some (.function n ps b, rest)
  | _ :: rest => nearestFunctionWithRest rest

/-- The second walk of `Return.validate_self`: the parent of the first
`Function` ancestor that compares equal (dataclass `==`) to the
enclosing function. -/
def findEqFunctionParent (f : Stmt) : List ANode → Option (Option ANode)
  | [] => none
  | .stmt (.function n ps b) :: rest =>
    if Stmt.function n ps b == f then some rest.head?
    else findEqFunctionParent f rest
  | _ :: rest => findEqFunctionParent f rest

/-- `Return.validate_self`. -/
def returnValidate (value : Option Expr) (anc : List ANode) : Except Fault Unit :=
  match nearestFunctionWithRest anc with
  | none => .error (.semanticError "Can't return from top-level code.")
  | some (.function n _ _, _) =>
    if n == "init" && value.isSome then
      match findEqFunctionParent (match nearestFunctionWithRest anc with
        | some (f, _) => f
        | none => .block []) anc with
      | some (some p) =>
        if ancIsClass p then
          .error (.semanticError "Can't return a value from an initializer.")
        else .ok ()
      | _ => .ok ()
    else .ok ()
  | some _ => .ok ()

/-- The reserved-parameter scan of `Function.validate_self`. -/
def fnParamsReservedScan : List String → Except Fault Unit
  | [] => .ok ()
  | p :: rest =>
    if reservedWords.contains p then .error (.semanticError "Expect variable name.")
    else fnParamsReservedScan rest

/-- The duplicate-parameter scan of `Function.validate_self`. -/
def fnParamsDupScan (seen : List String) : List String → Except Fault Unit
  | [] => .ok ()
  | p :: rest =>
    if seen.contains p then
      .error (.semanticError "Already a variable with this name in this scope.")
    else fnParamsDupScan (p :: seen) rest

/-- `Function.validate_self`. -/
def functionValidate (params : List String) : Except Fault Unit := do
  fnParamsReservedScan params
  fnParamsDupScan [] params

/-- `Class.validate_self`. -/
def classValidate (name : String) (sup : Option String) : Except Fault Unit :=
  match sup with
  | some s =>
    if s == name then .error (.semanticError "A class can't inherit from itself.")
    else .ok ()
  | none => .ok ()

/-- Per-node self-validation of expression nodes (nodes of `ast.py`
without a `validate_self` validate trivially). -/
def validateExprSelf (anc : List ANode) : Expr → Except Fault Unit
  | .var n => varValidate n anc
  | .thisE => thisValidate anc
  | .superE _ => superValidate anc
  | _ => .ok ()

/-- Per-node self-validation of statement nodes. -/
def validateStmtSelf (anc : List ANode) : Stmt → Except Fault Unit
  | .varDef n _ => varDefValidate n
  | .block ss => blockValidate ss anc
  | .function _ ps _ => functionValidate ps
  | .classS n _ sup => classValidate n sup
  | .ret v => returnValidate v anc
  | _ => .ok ()

mutual

/-- Modelled from the spec (section 4.3): single top-down traversal,
validating each node against its ancestor chain before descending into
its children, depth-first and left-to-right, failing on the first
Semantic Error. -/
def validateExpr (anc : List ANode) (e : Expr) : Except Fault Unit := do
  validateExprSelf anc e
  match e with
  | .binOp l r _ => do
    validateExpr (.expr e :: anc) l
    validateExpr (.expr e :: anc) r
  | .var _ => .ok ()
  | .literal _ => .ok ()
  | .andE l r => do
    validateExpr (.expr e :: anc) l
    validateExpr (.expr e :: anc) r
  | .orE l r => do
    validateExpr (.expr e :: anc) l
    validateExpr (.expr e :: anc) r
  | .unaryOp e1 _ => validateExpr (.expr e :: anc) e1
  | .call f args => do
    validateExpr (.expr e :: anc) f
    validateExprList (.expr e :: anc) args
  | .thisE => .ok ()
  | .superE _ => .ok ()
  | .assign _ v => validateExpr (.expr e :: anc) v
  | .getattr v _ => validateExpr (.expr e :: anc) v
  | .setattr v _ e2 => do
    validateExpr (.expr e :: anc) v
    validateExpr (.expr e :: anc) e2

def validateExprList (anc : List ANode) : List Expr → Except Fault Unit
  | [] => .ok ()
  | e :: rest => do
    validateExpr anc e
    validateExprList anc rest

def validateStmt (anc : List ANode) (s : Stmt) : Except Fault Unit := do
  validateStmtSelf anc s
  match s with
  | .exprStmt e => validateExpr anc e
  | .print e => validateExpr (.stmt s :: anc) e
  | .ret none => .ok ()
  | .ret (some e) => validateExpr (.stmt s :: anc) e
  | .varDef _ e => validateExpr (.stmt s :: anc) e
  | .ifS c t none => do
    validateExpr (.stmt s :: anc) c
    validateStmt (.stmt s :: anc) t
  | .ifS c t (some e2) => do
    validateExpr (.stmt s :: anc) c
    validateStmt (.stmt s :: anc) t
    validateStmt (.stmt s :: anc) e2
  | .whileS c b => do
    validateExpr (.stmt s :: anc) c
    validateStmt (.stmt s :: anc) b
  | .block ss => validateStmtList (.stmt s :: anc) ss
  | .function _ _ b => validateStmt (.stmt s :: anc) b
  | .classS _ ms _ => validateStmtList (.stmt s :: anc) ms

def validateStmtList (anc : List ANode) : List Stmt → Except Fault Unit
  | [] => .ok ()
  | s :: rest => do
    validateStmt anc s
    validateStmtList anc rest

end

/-- The whole validation pass over a program. -/
def validateProgram (stmts : List Stmt) : Except Fault Unit :=
  validateStmtList [.prog stmts] stmts

/-- The one-element rational literal shorthand used by the example
programs below. -/
def numL (q : ℚ) : Lit := .num (.finite q false)

/-- AST of `class P { init(x) { this.x = x; } } var a = P(1); print a.x;`
as the transformer builds it. -/
def progInitGood : List Stmt :=
  [.classS "P" [.function "init" ["x"] (.block [.exprStmt (.setattr .thisE "x" (.var "x"))])] none,
   .varDef "a" (.call (.var "P") [.literal (numL 1)]),
   .print (.getattr (.var "a") "x")]

/-- AST of `class P { init(x) { this.x = x; } } var a = P(); print a;`. -/
def progInitZero : List Stmt :=
  [.classS "P" [.function "init" ["x"] (.block [.exprStmt (.setattr .thisE "x" (.var "x"))])] none,
   .varDef "a" (.call (.var "P") []),
   .print (.var "a")]

/-- AST of `var S = 1; print "a"; class C < S {}`. -/
def progSuperNotClass : List Stmt :=
  [.varDef "S" (.literal (numL 1)),
   .print (.literal (.str "a")),
   .classS "C" [] (some "S")]

/-- AST of `{ var x = x; }`. -/
def progSelfInitBlock : List Stmt := [.block [.varDef "x" (.var "x")]]

/-- AST of `var x = x;` (top level). -/
def progSelfInitTop : List Stmt := [.varDef "x" (.var "x")]

/-- AST of `var x = 1; { var y = x; }`. -/
def progOuterRead : List Stmt :=
  [.varDef "x" (.literal (numL 1)),
   .block [.varDef "y" (.var "x")]]

/-- AST of a program constructing instances of two different classes
with different fields and printing their equality:
`class A { init() { this.a = 1; } } class B { init() { this.b = 2; } }
var x = A(); var y = B(); print x == y;`. -/
def progInstanceEq : List Stmt :=
  [.classS "A" [.function "init" [] (.block [.exprStmt (.setattr .thisE "a" (.literal (numL 1)))])] none,
   .classS "B" [.function "init" [] (.block [.exprStmt (.setattr .thisE "b" (.literal (numL 2)))])] none,
   .varDef "x" (.call (.var "A") []),
   .varDef "y" (.call (.var "B") []),
   .print (.binOp (.var "x") (.var "y") .eq)]

/-- Output of a normally completed run. -/
def resOutput : Res Unit → Option (List String)
  | .ok st _ => some st.output
  | _ => none

/-- Fault and output of a faulted run. -/
def resFault : Res Unit → Option (Fault × List String)
  | .fault st f => some (f, st.output)
  | _ => none

/-- The divisor-is-zero test `right != 0` of `runtime.truediv`, lifted to
values. -/
def numericZero (v : Value) : Bool :=
  match asNum v with
  | some b => b.isZero
  | none => false

/-- Whether an operator outcome is a raised `LoxError` (the kind of fault
every arithmetic type mismatch raises). -/
def isLoxFaultE : Except Fault Value → Bool
  | .error (.loxError _) => true
  | _ => false

/-- A class defining no method at all (hence no `init` anywhere in its
chain). -/
def clsNoInit : LoxClass := .mk "A" [] none

/-- The `init(x) {}` method of `clsInitArity`. -/
def initMth : LoxFunction := .mk "init" ["x"] (.block []) [0]

/-- A class whose `init` takes one parameter, closing over the root
frame. -/
def clsInitArity : LoxClass := .mk "Q" [("init", initMth)] none

/-- A state in which `S` is bound to the number `1` in the root frame and
one line has already been printed. -/
def stC4w : State :=
  { frames := [[("S", .num (.finite 1 false))]], insts := [], nextId := 0,
    output := ["a"] }

/-! ## Helper lemmas -/

/-- Whatever the fuel, state, class and arguments, a class call that
completes without a fault yields the freshly constructed instance (the
address allocated at entry). -/
theorem loxClassCall_ok_inst (fuel : ℕ) (st : State) (c : LoxClass)
    (args : List Value) (st2 : State) (v : Value)
    (h : loxClassCall fuel st c args = .ok st2 v) : v = .inst st.insts.length := by
  cases fuel with
  | zero => simp [loxClassCall] at h
  | succ n =>
    unfold loxClassCall at h
    simp only [allocInst] at h
    split at h
    · split at h
      · simp_all
      · simp_all
    · split at h
      · simp_all
      · split at h
        · simp_all
        · simp_all
      · simp_all
      · simp_all
      · simp_all

/-- A decimal digit is not a decimal point. -/
theorem digitChar_ne_dot (n : ℕ) (h : n < 10) : digitChar n ≠ '.' := by
  interval_cases n <;> decide

/-- No decimal point occurs among extracted digits. -/
theorem natDigsAux_no_dot (fuel : ℕ) : ∀ n, ∀ c ∈ natDigsAux fuel n, c ≠ '.' := by
  induction fuel with
  | zero => simp [natDigsAux]
  | succ f ih =>
    intro n
    unfold natDigsAux
    by_cases h : n < 10
    · simp only [if_pos h, List.mem_singleton]
      intro c hc
      subst hc
      exact digitChar_ne_dot n h
    · simp only [if_neg h, List.mem_append, List.mem_singleton]
      intro c hc
      rcases hc with hc | hc
      · exact ih (n / 10) c hc
      · subst hc
        exact digitChar_ne_dot (n % 10) (Nat.mod_lt n (by omega))

/-- No decimal point occurs among the digits of a natural number. -/
theorem natDigs_no_dot (n : ℕ) : ∀ c ∈ natDigs n, c ≠ '.' :=
  natDigsAux_no_dot (n + 1) n

/-- Rendering an integer never produces a decimal point. -/
theorem intStr_no_dot (z : ℤ) : ('.' : Char) ∉ (intStr z).data := by
  unfold intStr natStr
  split
  · intro hmem
    rw [String.data_append] at hmem
    rcases List.mem_append.mp hmem with hc | hc
    · simp at hc
    · exact natDigs_no_dot z.natAbs _ hc rfl
  · intro hmem
    exact natDigs_no_dot z.natAbs _ hmem rfl

/-! ## Claim theorems -/

/-- C1 (code behavior at the failing input): for
`class P { init(x) { this.x = x; } }`, the call `P(1)` succeeds and a
subsequent `.x` read yields `1` — but `P()` does NOT fail: the arity
`LoxError` raised by the bound `init` is caught inside
`LoxClass.__call__` and, because no arguments were supplied, swallowed,
so the program completes normally and prints the instance. -/
theorem C1_init_arity_code_behavior :
    resOutput (runProgram 30 progInitGood) = some ["1"] ∧
    resOutput (runProgram 30 progInitZero) = some ["P instance"] :=
  ⟨rfl, rfl⟩

/-- C3: any two class instances compare equal under `runtime.eq`,
because `LoxInstance` is a dataclass with no comparison fields; in
particular a program constructing instances of two different classes
with different fields prints `true` for their `==`. -/
theorem C3_instances_always_equal :
    (∀ a b : ℕ, eqV (.inst a) (.inst b) = true) ∧
    resOutput (runProgram 40 progInstanceEq) = some ["true"] :=
  ⟨fun _ _ => rfl, rfl⟩

/-- C7 (code behavior): unary minus is the host `operator.neg`, so a
boolean operand yields a host integer (`-true` is `-1`) instead of
failing, a numeric operand negates arithmetically, and a non-numeric
operand raises a host `TypeError`; no operand ever raises the Lox
`Operands must be numbers.` fault. -/
theorem C7_neg_code_behavior :
    negV (.bool true) = .ok (.int (-1)) ∧
    negV (.bool false) = .ok (.int 0) ∧
    negV (.str "s") = .error (.typeError "bad operand type for unary -: 'str'") ∧
    negV .nil = .error (.typeError "bad operand type for unary -: 'NoneType'") ∧
    (∀ n : PyNum, negV (.num n) = .ok (.num n.negNum)) ∧
    (∀ v : Value, isLoxFaultE (negV v) = false) := by
  refine ⟨rfl, rfl, rfl, rfl, fun n => rfl, fun v => ?_⟩
  cases v <;> rfl


/-- The rational 7/2, built in reduced form so that kernel reduction
never has to normalize a quotient. -/
def qSevenHalves : ℚ := ⟨7, 2, by decide, by decide⟩

/-- C2: for a class with no `init` anywhere in its chain, a zero-argument
call succeeds with the fresh instance, an N-argument call (N > 0) fails
with `Expected 0 arguments but got N.`, and any class call at all that
completes without fault returns the freshly constructed instance. -/
theorem C2_no_init_class_call (fuel : ℕ) (st : State) (c : LoxClass)
    (args : List Value) (h : getMethod c "init" = none) :
    (args = [] →
      loxClassCall (fuel + 1) st c args =
        .ok (allocInst st c).1 (.inst st.insts.length)) ∧
    (args ≠ [] →
      loxClassCall (fuel + 1) st c args =
        .fault (allocInst st c).1
          (.loxError ("Expected 0 arguments but got " ++ toString args.length ++ "."))) ∧
    (∀ (fuel2 : ℕ) (st0 : State) (c0 : LoxClass) (args0 : List Value)
        (st2 : State) (v : Value),
      loxClassCall fuel2 st0 c0 args0 = .ok st2 v → v = .inst st0.insts.length) := by
  refine ⟨?_, ?_, fun fuel2 st0 c0 args0 st2 v hh =>
    loxClassCall_ok_inst fuel2 st0 c0 args0 st2 v hh⟩
  · intro ha
    subst ha
    unfold loxClassCall
    simp [h, allocInst]
  · intro ha
    cases args with
    | nil => exact absurd rfl ha
    | cons a as =>
      unfold loxClassCall
      simp [h, allocInst]

/-- Witness for C2 at a concrete no-init class: `A()` yields the fresh
instance and `A(nil)` faults with the exact message. -/
theorem C2_no_init_class_call_witness :
    getMethod clsNoInit "init" = none ∧
    loxClassCall 1 initState clsNoInit [] =
      .ok (allocInst initState clsNoInit).1 (.inst 0) ∧
    loxClassCall 1 initState clsNoInit [.nil] =
      .fault (allocInst initState clsNoInit).1
        (.loxError "Expected 0 arguments but got 1.") := by
  refine ⟨rfl, ?_, ?_⟩
  · exact (C2_no_init_class_call 0 initState clsNoInit [] rfl).1 rfl
  · exact (C2_no_init_class_call 0 initState clsNoInit [.nil] rfl).2.1
      (List.cons_ne_nil _ _)

/-- C4 counterexample: the program `var S = 1; print "a"; class C < S {}`
passes the whole validation pass, yet its evaluation raises a Semantic
Error (`Superclass must be a class.`) after the `print` output `a` has
already been produced — so Semantic Errors are not confined to the
pre-execution validation pass. -/
theorem C4_counterexample :
    validateProgram progSuperNotClass = .ok () ∧
    resFault (runProgram 30 progSuperNotClass) =
      some (.semanticError "Superclass must be a class.", ["a"]) :=
  ⟨rfl, rfl⟩

/-- C4 as amended: evaluating a class statement whose superclass name
resolves to a non-class value raises the Semantic Error
`Superclass must be a class.` during evaluation, with the state (hence
any print output already produced) untouched; this is the one place a
Semantic Error escapes the validation pass. -/
theorem C4_semantic_error_in_eval (fuel : ℕ) (st : State) (ctx : Ctx)
    (n : String) (ms : List Stmt) (sname : String) (v : Value)
    (hl : ctxLookup st ctx sname = some v) (hc : ∀ c0 : LoxClass, v ≠ .cls c0) :
    evalStmt (fuel + 1) st ctx (.classS n ms (some sname)) =
      .fault st (.semanticError "Superclass must be a class.") := by
  cases v with
  | cls c0 => exact absurd rfl (hc c0)
  | nil => unfold evalStmt; dsimp only; rw [hl]
  | bool b => unfold evalStmt; dsimp only; rw [hl]
  | num n0 => unfold evalStmt; dsimp only; rw [hl]
  | int z => unfold evalStmt; dsimp only; rw [hl]
  | str s0 => unfold evalStmt; dsimp only; rw [hl]
  | inst a => unfold evalStmt; dsimp only; rw [hl]
  | fn f => unfold evalStmt; dsimp only; rw [hl]
  | boundMethod i a m => unfold evalStmt; dsimp only; rw [hl]
  | initWrapper i a m => unfold evalStmt; dsimp only; rw [hl]

/-- Witness for the amended C4 at a concrete state binding `S` to `1`
after one printed line. -/
theorem C4_semantic_error_in_eval_witness :
    evalStmt 1 stC4w [0] (.classS "C" [] (some "S")) =
      .fault stC4w (.semanticError "Superclass must be a class.") :=
  C4_semantic_error_in_eval 0 stC4w [0] "C" [] "S" (.num (.finite 1 false)) rfl
    (by intro c0 hh; simp at hh)

/-- C5: division of numeric operands by a zero divisor does not fail and
yields the not-a-number double, which is truthy; and division fails with
`Operands must be numbers.` exactly when an operand is a boolean or
otherwise non-numeric. -/
theorem C5_division_by_zero :
    (∀ l r : Value, isNumeric l = true → isNumeric r = true →
      numericZero r = true →
      truediv l r = .ok (.num .nan) ∧ truthy (.num .nan) = true) ∧
    (∀ l r : Value,
      truediv l r = .error (.loxError "Operands must be numbers.") ↔
        ¬(isNumeric l = true ∧ isNumeric r = true)) := by
  constructor
  · intro l r hl hr hz
    refine ⟨?_, rfl⟩
    cases l <;> cases r <;>
      simp_all [truediv, asNum, isNumeric, isBool, numericZero]
  · intro l r
    cases l <;> cases r <;>
      simp [truediv, asNum, isNumeric, isBool]

/-- Witness for C5 at `1 / 0`. -/
theorem C5_division_by_zero_witness :
    truediv (.num (.finite 1 false)) (.num (.finite 0 false)) = .ok (.num .nan) ∧
    truthy (.num .nan) = true :=
  C5_division_by_zero.1 (.num (.finite 1 false)) (.num (.finite 0 false)) rfl rfl rfl

/-- C6: equality is exact-type-then-value — a number and a string are
never equal, `1 == "1"` is false, `1 == 1` is true, `nil == false` is
false, `!=` is the boolean negation of `==`, and equal values always
have matching runtime kinds. -/
theorem C6_equality_strict :
    (∀ (n : PyNum) (s : String), eqV (.num n) (.str s) = false) ∧
    eqV (.num (.finite 1 false)) (.str "1") = false ∧
    eqV (.num (.finite 1 false)) (.num (.finite 1 false)) = true ∧
    eqV .nil (.bool false) = false ∧
    (∀ l r : Value, neV l r = !(eqV l r)) ∧
    (∀ l r : Value, eqV l r = true → kindOf l = kindOf r) := by
  refine ⟨fun n s => rfl, rfl, rfl, rfl, fun l r => rfl, ?_⟩
  intro l r h
  by_cases hk : kindOf l = kindOf r
  · exact hk
  · simp [eqV, hk] at h

/-- Witness for C6's kind-matching implication at `1 == 1`. -/
theorem C6_equality_strict_witness :
    kindOf (.num (.finite 1 false)) = kindOf (.num (.finite 1 false)) :=
  C6_equality_strict.2.2.2.2.2 (.num (.finite 1 false)) (.num (.finite 1 false)) rfl

/-- C8: `{ var x = x; }` fails validation with the exact self-initializer
message, while the same declaration at top level and a block reading an
outer variable pass; in general, for a variable reference standing as
the initializer of a `VarDef` of the same (unreserved) name, validation
raises the self-initializer error precisely when the `VarDef` has a
block among its ancestors. -/
theorem C8_self_initializer_validation :
    validateProgram progSelfInitBlock =
      .error (.semanticError "Can't read local variable in its own initializer.") ∧
    validateProgram progSelfInitTop = .ok () ∧
    validateProgram progOuterRead = .ok () ∧
    (∀ (name : String) (e : Expr) (rest : List ANode),
      reservedWords.contains name = false →
      (varValidate name (.stmt (.varDef name e) :: rest) =
          .error (.semanticError "Can't read local variable in its own initializer.") ↔
        rest.any ancIsBlock = true)) := by
  refine ⟨rfl, rfl, rfl, ?_⟩
  intro name e rest hres
  have hres2 : ¬ (reservedWords.contains name = true) := by simpa using hres
  have h1 : varValidate name (.stmt (.varDef name e) :: rest) =
      if name == name && rest.any ancIsBlock then
        .error (.semanticError "Can't read local variable in its own initializer.")
      else .ok () := by
    unfold varValidate
    rw [if_neg hres2]
    rfl
  rw [h1]
  by_cases hb : rest.any ancIsBlock = true
  · simp [hb]
  · simp [hb]

/-- Witness for C8's general criterion at name `x` under a `VarDef x`
inside a block. -/
theorem C8_self_initializer_validation_witness :
    varValidate "x" [.stmt (.varDef "x" (.var "x")), .stmt (.block [])] =
      .error (.semanticError "Can't read local variable in its own initializer.") :=
  ((C8_self_initializer_validation).2.2.2 "x" (.var "x") [.stmt (.block [])]
    rfl).mpr rfl

/-- C9: an integral double renders as its integer with no decimal point,
a literal negative zero renders as `-0`, and a non-integral double keeps
its fractional text (`3.5` renders as `"3.5"`). -/
theorem C9_integral_rendering :
    (∀ (q : ℚ) (nz : Bool), q.den = 1 → (q = 0 → nz = false) →
      showNum (.finite q nz) = intStr q.num ∧ ('.' : Char) ∉ (intStr q.num).data) ∧
    showNum (.finite 0 true) = "-0" ∧
    showNum (.finite qSevenHalves false) = "3.5" ∧
    showNum (.finite 3 false) = "3" := by
  refine ⟨?_, rfl, rfl, rfl⟩
  intro q nz hden hzz
  refine ⟨?_, fun hmem => intStr_no_dot q.num hmem⟩
  by_cases hq : q = 0
  · have hnz : nz = false := hzz hq
    subst hnz
    simp [showNum, hq, hden]
  · simp [showNum, hq, hden]

/-- Witness for C9's integral case at `3.0`. -/
theorem C9_integral_rendering_witness :
    showNum (.finite 3 false) = intStr (3 : ℚ).num ∧
    ('.' : Char) ∉ (intStr (3 : ℚ).num).data :=
  C9_integral_rendering.1 3 false rfl (fun _ => rfl)

/-- C10: when the inheritance chain does provide an `init` and its
invocation with zero arguments raises any Lox fault, `LoxClass.__call__`
swallows the fault and the call still returns the freshly constructed
instance. -/
theorem C10_init_fault_swallowed (fuel : ℕ) (st : State) (c : LoxClass)
    (m : LoxFunction) (st3 : State) (msg : String)
    (hm : getMethod c "init" = some m)
    (hcall : loxFunctionCall fuel
        (bindFn (allocInst st c).1 m (.inst (allocInst st c).2)).1
        (bindFn (allocInst st c).1 m (.inst (allocInst st c).2)).2 [] =
      .fault st3 (.loxError msg)) :
    loxClassCall (fuel + 1) st c [] = .ok st3 (.inst st.insts.length) := by
  unfold loxClassCall
  simp only [allocInst] at hcall
  simp only [hm, allocInst]
  rw [hcall]
  simp

/-- Witness for C10: a class whose `init` takes one parameter, called
with zero arguments — the arity fault from `init` is swallowed and the
fresh instance is returned. -/
theorem C10_init_fault_swallowed_witness :
    loxClassCall 2 initState clsInitArity [] =
      .ok (bindFn (allocInst initState clsInitArity).1 initMth
            (.inst (allocInst initState clsInitArity).2)).1
        (.inst 0) :=
  C10_init_fault_swallowed 1 initState clsInitArity initMth
    (bindFn (allocInst initState clsInitArity).1 initMth
      (.inst (allocInst initState clsInitArity).2)).1
    "Expected 1 arguments but got 0." rfl rfl

end Lox
